import Mathlib

/-!
Shallow embedding of src/server.py, a FastAPI proxy in front of the Tavily
search/extract HTTP API, together with theorems checking the specification
claims against it.

Modelling conventions:
- Environment variables are modelled by a `Config` record fixed at startup:
  `API_KEY` is `Option String` (it may be unset), `TAVILY_API_KEY` is a
  `String` (the process refuses to start without it).
- The `api_key` request header is `Option String` (`none` when absent), the
  value produced by `APIKeyHeader(name="api_key", auto_error=False)`.
  Python equality between two `Optional[str]` values (where `None == None`
  is true) is exactly decidable equality on `Option String`.
- A JSON request body is an association list `RawBody`; pydantic validation
  of the two request models is transcribed field by field.
- The single outbound `requests.post` per handler call is modelled by an
  `UpstreamOutcome` argument (the response received, or the message of the
  exception raised), and each handler records the outbound request it issued
  in `HandlerOutput.calls` and its server-side prints in `HandlerOutput.log`.
- `raise HTTPException(c, d)` inside a `try` block whose `except Exception`
  clause re-raises `HTTPException(500, str(e))` is transcribed faithfully:
  `HTTPException` subclasses `Exception`, so the inner raise is intercepted,
  and Starlette defines `str(e)` for it as `f"{status_code}: {detail}"`,
  modelled by `strHTTPException`.
-/

namespace TavilyServer

/-- JSON-like values appearing in request bodies and upstream payloads. -/
inductive JVal where
  | s (v : String)
  | i (v : Int)
  | b (v : Bool)
  | strs (vs : List String)
deriving Repr, DecidableEq

/-- Process-wide configuration read from the environment at startup:
`API_KEY = os.environ.get("API_KEY")` (may be unset) and
`TAVILY_API_KEY` (required, the process refuses to start without it). -/
structure Config where
  apiKey : Option String
  tavilyApiKey : String
deriving Repr, DecidableEq

/-- An HTTPException surfaced to the caller: status code and detail. -/
structure HttpError where
  status : Nat
  detail : String
deriving Repr, DecidableEq

/-- Starlette renders `str(HTTPException(status, detail))` as
`f"{status_code}: {detail}"`. -/
def strHTTPException (status : Nat) (detail : String) : String :=
  toString status ++ ": " ++ detail

/-- The dependency `get_api_key`: compares the `api_key` header value with
the process `API_KEY` (Python `==` on two `Optional[str]` values) and raises
`HTTPException(403, "Invalid API key")` on mismatch. -/
def get_api_key (apiKey : Option String) (header : Option String) :
    Except HttpError (Option String) :=
  if header = apiKey then
    .ok header
  else
    .error ⟨403, "Invalid API key"⟩

/-- The `baseURLs` dict of the source. -/
def baseURLs : List (String × String) :=
  [("search", "https://api.tavily.com/search"),
   ("extract", "https://api.tavily.com/extract")]

/-- Dict lookup `baseURLs[op]` (only ever used at the two present keys). -/
def baseURL (op : String) : String :=
  ((baseURLs.find? (fun p => p.1 == op)).map (fun p => p.2)).getD ""

/-- The pydantic model `TavilySearchRequest` after validation: every field
populated, enum-constrained fields held as their literal strings. -/
structure TavilySearchRequest where
  query : String
  search_depth : String := "basic"
  topic : String := "general"
  days : Int := 3
  time_range : String := "day"
  max_results : Int := 10
  include_images : Bool := false
  include_image_descriptions : Bool := false
  include_raw_content : Bool := false
  include_domains : List String := []
  exclude_domains : List String := []
deriving Repr, DecidableEq

/-- The pydantic model `TavilyExtractRequest` after validation. -/
structure TavilyExtractRequest where
  urls : List String
  extract_depth : String := "basic"
  include_images : Bool := false
deriving Repr, DecidableEq

/-- Literal set of `search_depth`. -/
def search_depth_literals : List String := ["basic", "advanced"]

/-- Literal set of `topic`. -/
def topic_literals : List String := ["general", "news"]

/-- Literal set of `time_range`. -/
def time_range_literals : List String :=
  ["day", "week", "month", "year", "d", "w", "m", "y"]

/-- Literal set of `extract_depth`. -/
def extract_depth_literals : List String := ["basic", "advanced"]

/-- A raw JSON request body: field name to value. -/
def RawBody := List (String × JVal)

/-- Field lookup in a raw body; unknown extra fields are simply ignored. -/
def getField (body : RawBody) (k : String) : Option JVal :=
  (body.find? (fun p => p.1 == k)).map (fun p => p.2)

/-- Coerce a JSON value to `str`. -/
def vStr : JVal → Option String
  | .s v => some v
  | _ => none

/-- Coerce a JSON value to `int`. -/
def vInt : JVal → Option Int
  | .i v => some v
  | _ => none

/-- Coerce a JSON value to `bool`. -/
def vBool : JVal → Option Bool
  | .b v => some v
  | _ => none

/-- Coerce a JSON value to `list[str]`. -/
def vStrList : JVal → Option (List String)
  | .strs vs => some vs
  | _ => none

/-- A required typed field: absent or ill-typed is a validation failure
naming the field. -/
def reqField (body : RawBody) (k : String) (conv : JVal → Option α) :
    Except String α :=
  match getField body k with
  | none => .error k
  | some v =>
    match conv v with
    | none => .error k
    | some x => .ok x

/-- An optional typed field with a default. -/
def optField (body : RawBody) (k : String) (conv : JVal → Option α) (dflt : α) :
    Except String α :=
  match getField body k with
  | none => .ok dflt
  | some v =>
    match conv v with
    | none => .error k
    | some x => .ok x

/-- A `Literal[...]` field with a default: a present value must be a string
belonging exactly (case-sensitively) to the declared literal set. -/
def litField (body : RawBody) (k : String) (allowed : List String)
    (dflt : String) : Except String String :=
  match getField body k with
  | none => .ok dflt
  | some (.s v) => if v ∈ allowed then .ok v else .error k
  | some _ => .error k

/-- Pydantic validation of a raw body against `TavilySearchRequest`. -/
def parseSearchRequest (body : RawBody) : Except String TavilySearchRequest := do
  let query ← reqField body "query" vStr
  let search_depth ← litField body "search_depth" search_depth_literals "basic"
  let topic ← litField body "topic" topic_literals "general"
  let days ← optField body "days" vInt 3
  let time_range ← litField body "time_range" time_range_literals "day"
  let max_results ← optField body "max_results" vInt 10
  let include_images ← optField body "include_images" vBool false
  let include_image_descriptions ←
    optField body "include_image_descriptions" vBool false
  let include_raw_content ← optField body "include_raw_content" vBool false
  let include_domains ← optField body "include_domains" vStrList []
  let exclude_domains ← optField body "exclude_domains" vStrList []
  .ok { query, search_depth, topic, days, time_range, max_results,
        include_images, include_image_descriptions, include_raw_content,
        include_domains, exclude_domains }

/-- Pydantic validation of a raw body against `TavilyExtractRequest`. -/
def parseExtractRequest (body : RawBody) : Except String TavilyExtractRequest := do
  let urls ← reqField body "urls" vStrList
  let extract_depth ← litField body "extract_depth" extract_depth_literals "basic"
  let include_images ← optField body "include_images" vBool false
  .ok { urls, extract_depth, include_images }

/-- Outcome of the single `requests.post` call a handler makes: either an
HTTP response was received (its status code, its `text`, and its parsed
`json()` body), or the call raised an exception with the given message. -/
inductive UpstreamOutcome where
  | resp (status : Nat) (text : String) (json : JVal)
  | exn (msg : String)
deriving Repr, DecidableEq

/-- An outbound request issued to the upstream provider. -/
structure UpstreamCall where
  url : String
  payload : List (String × JVal)
  headers : List (String × String)
deriving Repr, DecidableEq

/-- What a handler invocation produces: the caller-visible result (parsed
JSON body on success, an `HTTPException` otherwise), the outbound requests
issued (in order), and the server-side prints (in order). -/
structure HandlerOutput where
  result : Except HttpError JVal
  calls : List UpstreamCall
  log : List String
deriving Repr

/-- Body of the public `/search` handler `public_search`, given an already
validated request and the outcome of its `requests.post`. On a non-200
upstream status it raises `HTTPException(500, "Tavily API error")` inside
the `try`, which the blanket `except Exception` clause intercepts and
re-raises as `HTTPException(500, str(e))`. -/
def public_search (tavilyKey : String) (request : TavilySearchRequest)
    (up : UpstreamOutcome) : HandlerOutput :=
  let params : List (String × JVal) :=
    [("query", .s request.query),
     ("search_depth", .s request.search_depth),
     ("topic", .s request.topic),
     ("days", .i request.days),
     ("time_range", .s request.time_range),
     ("max_results", .i request.max_results),
     ("include_images", .b request.include_images),
     ("include_image_descriptions", .b request.include_image_descriptions),
     ("include_raw_content", .b request.include_raw_content),
     ("include_domains", .strs request.include_domains),
     ("exclude_domains", .strs request.exclude_domains)]
  let headers : List (String × String) :=
    [("Authorization", "Bearer " ++ tavilyKey)]
  let call : UpstreamCall := ⟨baseURL "search", params, headers⟩
  match up with
  | .exn msg => ⟨.error ⟨500, msg⟩, [call], []⟩
  | .resp status _text json =>
    if status ≠ 200 then
      ⟨.error ⟨500, strHTTPException 500 "Tavily API error"⟩, [call], []⟩
    else
      ⟨.ok json, [call], []⟩

/-- Body of the protected `/tavily-search` handler `tavily_search` (run
after its `get_api_key` dependency has succeeded). Identical transcription
of its source lines; on a non-200 upstream status it additionally executes
`print(response.text)` before raising. -/
def tavily_search (tavilyKey : String) (request : TavilySearchRequest)
    (up : UpstreamOutcome) : HandlerOutput :=
  let params : List (String × JVal) :=
    [("query", .s request.query),
     ("search_depth", .s request.search_depth),
     ("topic", .s request.topic),
     ("days", .i request.days),
     ("time_range", .s request.time_range),
     ("max_results", .i request.max_results),
     ("include_images", .b request.include_images),
     ("include_image_descriptions", .b request.include_image_descriptions),
     ("include_raw_content", .b request.include_raw_content),
     ("include_domains", .strs request.include_domains),
     ("exclude_domains", .strs request.exclude_domains)]
  let headers : List (String × String) :=
    [("Authorization", "Bearer " ++ tavilyKey)]
  let call : UpstreamCall := ⟨baseURL "search", params, headers⟩
  match up with
  | .exn msg => ⟨.error ⟨500, msg⟩, [call], []⟩
  | .resp status text json =>
    if status ≠ 200 then
      ⟨.error ⟨500, strHTTPException 500 "Tavily API error"⟩, [call], [text]⟩
    else
      ⟨.ok json, [call], []⟩

/-- Body of the protected `/tavily-extract` handler `tavily_extract` (run
after its `get_api_key` dependency has succeeded). No print on failure. -/
def tavily_extract (tavilyKey : String) (request : TavilyExtractRequest)
    (up : UpstreamOutcome) : HandlerOutput :=
  let params : List (String × JVal) :=
    [("urls", .strs request.urls),
     ("extract_depth", .s request.extract_depth),
     ("include_images", .b request.include_images)]
  let headers : List (String × String) :=
    [("Authorization", "Bearer " ++ tavilyKey)]
  let call : UpstreamCall := ⟨baseURL "extract", params, headers⟩
  match up with
  | .exn msg => ⟨.error ⟨500, msg⟩, [call], []⟩
  | .resp status _text json =>
    if status ≠ 200 then
      ⟨.error ⟨500, strHTTPException 500 "Tavily API error"⟩, [call], []⟩
    else
      ⟨.ok json, [call], []⟩

/-- FastAPI validation failure: 422 with a detail naming the offending
field. -/
def validationError (field : String) : HttpError :=
  ⟨422, "validation failure: " ++ field⟩

/-- The full `/search` route: no credential check; pydantic validation of
the body, then the handler. -/
def publicSearchEndpoint (tavilyKey : String) (body : RawBody)
    (up : UpstreamOutcome) : HandlerOutput :=
  match parseSearchRequest body with
  | .error f => ⟨.error (validationError f), [], []⟩
  | .ok r => public_search tavilyKey r up

/-- The full `/tavily-search` route: FastAPI resolves the `get_api_key`
dependency first (an `HTTPException` raised there propagates before body
validation errors are collected), then validates the body, then runs the
handler. -/
def tavilySearchEndpoint (cfg : Config) (header : Option String)
    (body : RawBody) (up : UpstreamOutcome) : HandlerOutput :=
  match get_api_key cfg.apiKey header with
  | .error e => ⟨.error e, [], []⟩
  | .ok _ =>
    match parseSearchRequest body with
    | .error f => ⟨.error (validationError f), [], []⟩
    | .ok r => tavily_search cfg.tavilyApiKey r up

/-- The full `/tavily-extract` route: credential dependency, then body
validation, then the handler. -/
def tavilyExtractEndpoint (cfg : Config) (header : Option String)
    (body : RawBody) (up : UpstreamOutcome) : HandlerOutput :=
  match get_api_key cfg.apiKey header with
  | .error e => ⟨.error e, [], []⟩
  | .ok _ =>
    match parseExtractRequest body with
    | .error f => ⟨.error (validationError f), [], []⟩
    | .ok r => tavily_extract cfg.tavilyApiKey r up

/-- The search payload dict as the source constructs it (used in theorem
statements to name the exact field set sent upstream). -/
def searchParams (r : TavilySearchRequest) : List (String × JVal) :=
  [("query", .s r.query),
   ("search_depth", .s r.search_depth),
   ("topic", .s r.topic),
   ("days", .i r.days),
   ("time_range", .s r.time_range),
   ("max_results", .i r.max_results),
   ("include_images", .b r.include_images),
   ("include_image_descriptions", .b r.include_image_descriptions),
   ("include_raw_content", .b r.include_raw_content),
   ("include_domains", .strs r.include_domains),
   ("exclude_domains", .strs r.exclude_domains)]

/-- The extract payload dict as the source constructs it. -/
def extractParams (r : TavilyExtractRequest) : List (String × JVal) :=
  [("urls", .strs r.urls),
   ("extract_depth", .s r.extract_depth),
   ("include_images", .b r.include_images)]

/-- Caller-visible status and detail of an error result, if any. -/
def resultDetail (o : HandlerOutput) : Option (Nat × String) :=
  match o.result with
  | .error e => some (e.status, e.detail)
  | .ok _ => none

/-- A Literal field whose present value is a string outside the declared
set fails validation naming that field. -/
theorem litField_invalid (body : RawBody) (k : String) (allowed : List String)
    (dflt v : String) (h : getField body k = some (.s v))
    (hv : v ∉ allowed) : litField body k allowed dflt = .error k := by
  simp [litField, h, hv]

/-- If the search_depth literal check fails, search validation fails. -/
theorem parseSearch_err_search_depth (body : RawBody)
    (h : litField body "search_depth" search_depth_literals "basic" =
      .error "search_depth") :
    ∃ f, parseSearchRequest body = .error f := by
  rcases hq : reqField body "query" vStr with e | q
  · exact ⟨e, by simp [parseSearchRequest, Bind.bind, Except.bind, hq]⟩
  · exact ⟨"search_depth", by simp [parseSearchRequest, Bind.bind, Except.bind, hq, h]⟩

/-- If the topic literal check fails, search validation fails. -/
theorem parseSearch_err_topic (body : RawBody)
    (h : litField body "topic" topic_literals "general" = .error "topic") :
    ∃ f, parseSearchRequest body = .error f := by
  rcases hq : reqField body "query" vStr with e | q
  · exact ⟨e, by simp [parseSearchRequest, Bind.bind, Except.bind, hq]⟩
  rcases hsd : litField body "search_depth" search_depth_literals "basic"
    with e | sd
  · exact ⟨e, by simp [parseSearchRequest, Bind.bind, Except.bind, hq, hsd]⟩
  · exact ⟨"topic", by simp [parseSearchRequest, Bind.bind, Except.bind, hq, hsd, h]⟩

/-- If the time_range literal check fails, search validation fails. -/
theorem parseSearch_err_time_range (body : RawBody)
    (h : litField body "time_range" time_range_literals "day" =
      .error "time_range") :
    ∃ f, parseSearchRequest body = .error f := by
  rcases hq : reqField body "query" vStr with e | q
  · exact ⟨e, by simp [parseSearchRequest, Bind.bind, Except.bind, hq]⟩
  rcases hsd : litField body "search_depth" search_depth_literals "basic"
    with e | sd
  · exact ⟨e, by simp [parseSearchRequest, Bind.bind, Except.bind, hq, hsd]⟩
  rcases ht : litField body "topic" topic_literals "general" with e | tp
  · exact ⟨e, by simp [parseSearchRequest, Bind.bind, Except.bind, hq, hsd, ht]⟩
  rcases hd : optField body "days" vInt 3 with e | d
  · exact ⟨e, by simp [parseSearchRequest, Bind.bind, Except.bind, hq, hsd, ht, hd]⟩
  · exact ⟨"time_range", by simp [parseSearchRequest, Bind.bind, Except.bind, hq, hsd, ht, hd, h]⟩

/-- If the extract_depth literal check fails, extract validation fails. -/
theorem parseExtract_err_extract_depth (body : RawBody)
    (h : litField body "extract_depth" extract_depth_literals "basic" =
      .error "extract_depth") :
    ∃ f, parseExtractRequest body = .error f := by
  rcases hu : reqField body "urls" vStrList with e | u
  · exact ⟨e, by simp [parseExtractRequest, Bind.bind, Except.bind, hu]⟩
  · exact ⟨"extract_depth", by simp [parseExtractRequest, Bind.bind, Except.bind, hu, h]⟩

/-- A validation failure on the protected search route means no upstream
call is issued, whatever the credential outcome. -/
theorem tavilySearch_no_call_of_invalid (cfg : Config)
    (header : Option String) (body : RawBody) (up : UpstreamOutcome)
    (f : String) (h : parseSearchRequest body = .error f) :
    (tavilySearchEndpoint cfg header body up).calls = [] := by
  rcases hg : get_api_key cfg.apiKey header with e | k <;>
    simp [tavilySearchEndpoint, hg, h]

/-- A validation failure on the public search route means no upstream call
is issued. -/
theorem publicSearch_no_call_of_invalid (tavilyKey : String)
    (body : RawBody) (up : UpstreamOutcome) (f : String)
    (h : parseSearchRequest body = .error f) :
    (publicSearchEndpoint tavilyKey body up).calls = [] := by
  simp [publicSearchEndpoint, h]

/-- A validation failure on the extract route means no upstream call is
issued, whatever the credential outcome. -/
theorem tavilyExtract_no_call_of_invalid (cfg : Config)
    (header : Option String) (body : RawBody) (up : UpstreamOutcome)
    (f : String) (h : parseExtractRequest body = .error f) :
    (tavilyExtractEndpoint cfg header body up).calls = [] := by
  rcases hg : get_api_key cfg.apiKey header with e | k <;>
    simp [tavilyExtractEndpoint, hg, h]

/-- A successful credential comparison in the dependency. -/
theorem get_api_key_ok (apiKey header : Option String)
    (h : header = apiKey) : get_api_key apiKey header = .ok header := by
  simp [get_api_key, h]

/-- The public search handler always issues exactly the search call built
from the validated request and the provider credential. -/
theorem public_search_calls (k : String) (r : TavilySearchRequest)
    (up : UpstreamOutcome) :
    (public_search k r up).calls =
      [⟨baseURL "search", searchParams r,
        [("Authorization", "Bearer " ++ k)]⟩] := by
  cases up with
  | exn m => rfl
  | resp st t j =>
    by_cases h : st = 200 <;> simp [public_search, h, searchParams]

/-- The protected search handler always issues exactly the search call
built from the validated request and the provider credential. -/
theorem tavily_search_calls (k : String) (r : TavilySearchRequest)
    (up : UpstreamOutcome) :
    (tavily_search k r up).calls =
      [⟨baseURL "search", searchParams r,
        [("Authorization", "Bearer " ++ k)]⟩] := by
  cases up with
  | exn m => rfl
  | resp st t j =>
    by_cases h : st = 200 <;> simp [tavily_search, h, searchParams]

/-- The extract handler always issues exactly the extract call built from
the validated request and the provider credential. -/
theorem tavily_extract_calls (k : String) (r : TavilyExtractRequest)
    (up : UpstreamOutcome) :
    (tavily_extract k r up).calls =
      [⟨baseURL "extract", extractParams r,
        [("Authorization", "Bearer " ++ k)]⟩] := by
  cases up with
  | exn m => rfl
  | resp st t j =>
    by_cases h : st = 200 <;> simp [tavily_extract, h, extractParams]

/-- Full output of the protected search handler on a non-200 upstream
response. -/
theorem tavily_search_non200 (k : String) (r : TavilySearchRequest)
    (st : Nat) (t : String) (j : JVal) (h : st ≠ 200) :
    tavily_search k r (.resp st t j) =
      ⟨.error ⟨500, strHTTPException 500 "Tavily API error"⟩,
       [⟨baseURL "search", searchParams r,
         [("Authorization", "Bearer " ++ k)]⟩], [t]⟩ := by
  simp [tavily_search, h, searchParams]

/-- Full output of the public search handler on a non-200 upstream
response. -/
theorem public_search_non200 (k : String) (r : TavilySearchRequest)
    (st : Nat) (t : String) (j : JVal) (h : st ≠ 200) :
    public_search k r (.resp st t j) =
      ⟨.error ⟨500, strHTTPException 500 "Tavily API error"⟩,
       [⟨baseURL "search", searchParams r,
         [("Authorization", "Bearer " ++ k)]⟩], []⟩ := by
  simp [public_search, h, searchParams]

/-- Full output of the extract handler on a non-200 upstream response. -/
theorem tavily_extract_non200 (k : String) (r : TavilyExtractRequest)
    (st : Nat) (t : String) (j : JVal) (h : st ≠ 200) :
    tavily_extract k r (.resp st t j) =
      ⟨.error ⟨500, strHTTPException 500 "Tavily API error"⟩,
       [⟨baseURL "extract", extractParams r,
         [("Authorization", "Bearer " ++ k)]⟩], []⟩ := by
  simp [tavily_extract, h, extractParams]

/-- C1: the claim says that when the API_KEY environment variable is unset
every request to a protected route fails authorization with 403, header
absent or present. The code instead authorizes the absent-header request
in that configuration: with API_KEY unset both sides of the comparison in
get_api_key are None, Python None == None holds, and the request proceeds
to the upstream call. Evaluated here at that failing input. -/
theorem C1_unset_secret_absent_header_is_authorized :
    get_api_key none none = .ok none ∧
    (tavilySearchEndpoint ⟨none, "tvly-key"⟩ none [("query", JVal.s "q")]
        (.resp 200 "ok" (.s "result"))).result = .ok (.s "result") ∧
    (tavilySearchEndpoint ⟨none, "tvly-key"⟩ none [("query", JVal.s "q")]
        (.resp 200 "ok" (.s "result"))).calls.length = 1 :=
  ⟨rfl, rfl, rfl⟩

/-- C2: when a secret is configured, every request to a protected route
whose api_key header differs from it — including an absent header — gets
exactly HTTPException 403 "Invalid API key", with no upstream call and no
server-side log. -/
theorem C2_mismatched_or_missing_key_403 (cfg : Config) (secret : String)
    (header : Option String) (body : RawBody) (up : UpstreamOutcome)
    (hset : cfg.apiKey = some secret) (hne : header ≠ some secret) :
    tavilySearchEndpoint cfg header body up =
      ⟨.error ⟨403, "Invalid API key"⟩, [], []⟩ ∧
    tavilyExtractEndpoint cfg header body up =
      ⟨.error ⟨403, "Invalid API key"⟩, [], []⟩ := by
  have hg : get_api_key cfg.apiKey header =
      .error ⟨403, "Invalid API key"⟩ := by
    rw [hset]
    simp [get_api_key, hne]
  exact ⟨by simp [tavilySearchEndpoint, hg],
         by simp [tavilyExtractEndpoint, hg]⟩

/-- Witness for C2 at a concrete wrong key and at an absent header. -/
theorem C2_mismatched_or_missing_key_403_witness :
    tavilySearchEndpoint ⟨some "secret", "tvly-key"⟩ (some "wrong")
        [("query", JVal.s "q")] (.exn "unreached") =
      ⟨.error ⟨403, "Invalid API key"⟩, [], []⟩ ∧
    tavilyExtractEndpoint ⟨some "secret", "tvly-key"⟩ none
        [("urls", JVal.strs [])] (.exn "unreached") =
      ⟨.error ⟨403, "Invalid API key"⟩, [], []⟩ :=
  ⟨(C2_mismatched_or_missing_key_403 ⟨some "secret", "tvly-key"⟩ "secret"
      (some "wrong") [("query", JVal.s "q")] (.exn "unreached") rfl
      (by decide)).1,
   (C2_mismatched_or_missing_key_403 ⟨some "secret", "tvly-key"⟩ "secret"
      none [("urls", JVal.strs [])] (.exn "unreached") rfl (by decide)).2⟩

/-- C6: a search body holding only query validates, and every other field
of the resulting request object carries its declared default. -/
theorem C6_query_only_populates_defaults (q : String) :
    parseSearchRequest [("query", JVal.s q)] =
      .ok ⟨q, "basic", "general", 3, "day", 10, false, false, false,
           [], []⟩ :=
  rfl

/-- C3: with the correct caller credential and a structurally valid body,
each protected route issues exactly one upstream POST whose payload keys
are exactly the schema field set and whose Authorization header is the
provider credential TAVILY_API_KEY as a bearer token. The right-hand sides
mention only the validated request and cfg.tavilyApiKey, never the caller
secret, so the caller credential is not used upstream. -/
theorem C3_upstream_payload_and_provider_credential (cfg : Config)
    (secret : String) (sbody ebody : RawBody) (sr : TavilySearchRequest)
    (er : TavilyExtractRequest) (up : UpstreamOutcome)
    (hset : cfg.apiKey = some secret)
    (hs : parseSearchRequest sbody = .ok sr)
    (he : parseExtractRequest ebody = .ok er) :
    (tavilySearchEndpoint cfg (some secret) sbody up).calls =
      [⟨baseURL "search", searchParams sr,
        [("Authorization", "Bearer " ++ cfg.tavilyApiKey)]⟩] ∧
    (searchParams sr).map Prod.fst =
      ["query", "search_depth", "topic", "days", "time_range",
       "max_results", "include_images", "include_image_descriptions",
       "include_raw_content", "include_domains", "exclude_domains"] ∧
    (tavilyExtractEndpoint cfg (some secret) ebody up).calls =
      [⟨baseURL "extract", extractParams er,
        [("Authorization", "Bearer " ++ cfg.tavilyApiKey)]⟩] ∧
    (extractParams er).map Prod.fst =
      ["urls", "extract_depth", "include_images"] := by
  have hg : get_api_key cfg.apiKey (some secret) = .ok (some secret) :=
    get_api_key_ok cfg.apiKey (some secret) hset.symm
  refine ⟨?_, rfl, ?_, rfl⟩
  · simp [tavilySearchEndpoint, hg, hs, tavily_search_calls]
  · simp [tavilyExtractEndpoint, hg, he, tavily_extract_calls]

/-- Witness for C3 at a concrete secret, bodies and upstream outcome. -/
theorem C3_upstream_payload_and_provider_credential_witness :
    (tavilySearchEndpoint ⟨some "secret", "tvly-key"⟩ (some "secret")
        [("query", JVal.s "q")] (.exn "boom")).calls =
      [⟨baseURL "search",
        searchParams ⟨"q", "basic", "general", 3, "day", 10, false, false,
          false, [], []⟩,
        [("Authorization", "Bearer " ++ "tvly-key")]⟩] ∧
    (searchParams ⟨"q", "basic", "general", 3, "day", 10, false, false,
        false, [], []⟩).map Prod.fst =
      ["query", "search_depth", "topic", "days", "time_range",
       "max_results", "include_images", "include_image_descriptions",
       "include_raw_content", "include_domains", "exclude_domains"] ∧
    (tavilyExtractEndpoint ⟨some "secret", "tvly-key"⟩ (some "secret")
        [("urls", JVal.strs ["http://a"])] (.exn "boom")).calls =
      [⟨baseURL "extract", extractParams ⟨["http://a"], "basic", false⟩,
        [("Authorization", "Bearer " ++ "tvly-key")]⟩] ∧
    (extractParams ⟨["http://a"], "basic", false⟩).map Prod.fst =
      ["urls", "extract_depth", "include_images"] :=
  C3_upstream_payload_and_provider_credential
    ⟨some "secret", "tvly-key"⟩ "secret"
    [("query", JVal.s "q")] [("urls", JVal.strs ["http://a"])]
    ⟨"q", "basic", "general", 3, "day", 10, false, false, false, [], []⟩
    ⟨["http://a"], "basic", false⟩ (.exn "boom") rfl rfl rfl

/-- C4 counterexample: at a concrete 503 upstream response on
/tavily-search with valid credential and body, the caller receives 500
with detail "500: Tavily API error", not the claimed fixed detail
"Tavily API error": the blanket except clause intercepts the internal
HTTPException(500, "Tavily API error") and re-raises it wrapped in
str(e). -/
theorem C4_fixed_detail_counterexample :
    resultDetail (tavilySearchEndpoint ⟨some "s", "tvly"⟩ (some "s")
        [("query", JVal.s "q")] (.resp 503 "Service Unavailable" (.s "x")))
      = some (500, "500: Tavily API error") ∧
    resultDetail (tavilySearchEndpoint ⟨some "s", "tvly"⟩ (some "s")
        [("query", JVal.s "q")] (.resp 503 "Service Unavailable" (.s "x")))
      ≠ some (500, "Tavily API error") :=
  ⟨rfl, by decide⟩

/-- C4 amended: on any non-200 upstream status with valid credential and
body, the caller receives a 500 whose detail is the fixed string
"500: Tavily API error" (str of the wrapped HTTPException); it is a
constant, so the provider status code and response body are not
forwarded. -/
theorem C4_non200_generic_500 (cfg : Config) (header : Option String)
    (body : RawBody) (r : TavilySearchRequest) (status : Nat)
    (text : String) (json : JVal) (hauth : header = cfg.apiKey)
    (hr : parseSearchRequest body = .ok r) (hne : status ≠ 200) :
    (tavilySearchEndpoint cfg header body (.resp status text json)).result =
      .error ⟨500, strHTTPException 500 "Tavily API error"⟩ ∧
    strHTTPException 500 "Tavily API error" = "500: Tavily API error" := by
  have hg := get_api_key_ok cfg.apiKey header hauth
  exact ⟨by simp [tavilySearchEndpoint, hg, hr,
                  tavily_search_non200 cfg.tavilyApiKey r status text json hne],
         rfl⟩

/-- Witness for the amended C4 at a concrete 503 response. -/
theorem C4_non200_generic_500_witness :
    (tavilySearchEndpoint ⟨some "s", "tvly"⟩ (some "s")
        [("query", JVal.s "q")]
        (.resp 503 "Service Unavailable" (.s "x"))).result =
      .error ⟨500, strHTTPException 500 "Tavily API error"⟩ ∧
    strHTTPException 500 "Tavily API error" = "500: Tavily API error" :=
  C4_non200_generic_500 ⟨some "s", "tvly"⟩ (some "s")
    [("query", JVal.s "q")]
    ⟨"q", "basic", "general", 3, "day", 10, false, false, false, [], []⟩
    503 "Service Unavailable" (.s "x") rfl rfl (by decide)

/-- C5: for each enum-typed field, a body whose value for that field is a
string outside the declared literal set fails validation, and the route
carrying that field issues zero upstream calls on such a body. -/
theorem C5_enum_value_outside_set_rejected (cfg : Config)
    (header : Option String) (body : RawBody) (up : UpstreamOutcome)
    (v : String) :
    (getField body "search_depth" = some (.s v) →
      v ∉ search_depth_literals →
      (∃ f, parseSearchRequest body = .error f) ∧
      (tavilySearchEndpoint cfg header body up).calls = [] ∧
      (publicSearchEndpoint cfg.tavilyApiKey body up).calls = []) ∧
    (getField body "topic" = some (.s v) → v ∉ topic_literals →
      (∃ f, parseSearchRequest body = .error f) ∧
      (tavilySearchEndpoint cfg header body up).calls = [] ∧
      (publicSearchEndpoint cfg.tavilyApiKey body up).calls = []) ∧
    (getField body "time_range" = some (.s v) → v ∉ time_range_literals →
      (∃ f, parseSearchRequest body = .error f) ∧
      (tavilySearchEndpoint cfg header body up).calls = [] ∧
      (publicSearchEndpoint cfg.tavilyApiKey body up).calls = []) ∧
    (getField body "extract_depth" = some (.s v) →
      v ∉ extract_depth_literals →
      (∃ f, parseExtractRequest body = .error f) ∧
      (tavilyExtractEndpoint cfg header body up).calls = []) := by
  refine ⟨fun hf hv => ?_, fun hf hv => ?_, fun hf hv => ?_,
          fun hf hv => ?_⟩
  · obtain ⟨f, hpf⟩ := parseSearch_err_search_depth body
      (litField_invalid body "search_depth" search_depth_literals
        "basic" v hf hv)
    exact ⟨⟨f, hpf⟩,
           tavilySearch_no_call_of_invalid cfg header body up f hpf,
           publicSearch_no_call_of_invalid cfg.tavilyApiKey body up f hpf⟩
  · obtain ⟨f, hpf⟩ := parseSearch_err_topic body
      (litField_invalid body "topic" topic_literals "general" v hf hv)
    exact ⟨⟨f, hpf⟩,
           tavilySearch_no_call_of_invalid cfg header body up f hpf,
           publicSearch_no_call_of_invalid cfg.tavilyApiKey body up f hpf⟩
  · obtain ⟨f, hpf⟩ := parseSearch_err_time_range body
      (litField_invalid body "time_range" time_range_literals "day" v hf hv)
    exact ⟨⟨f, hpf⟩,
           tavilySearch_no_call_of_invalid cfg header body up f hpf,
           publicSearch_no_call_of_invalid cfg.tavilyApiKey body up f hpf⟩
  · obtain ⟨f, hpf⟩ := parseExtract_err_extract_depth body
      (litField_invalid body "extract_depth" extract_depth_literals
        "basic" v hf hv)
    exact ⟨⟨f, hpf⟩,
           tavilyExtract_no_call_of_invalid cfg header body up f hpf⟩

/-- Witness for C5 at search_depth equal to "deep". -/
theorem C5_enum_value_outside_set_rejected_witness :
    (∃ f, parseSearchRequest
        [("query", JVal.s "q"), ("search_depth", JVal.s "deep")] =
      .error f) ∧
    (tavilySearchEndpoint ⟨some "s", "tvly"⟩ (some "s")
        [("query", JVal.s "q"), ("search_depth", JVal.s "deep")]
        (.exn "unreached")).calls = [] ∧
    (publicSearchEndpoint "tvly"
        [("query", JVal.s "q"), ("search_depth", JVal.s "deep")]
        (.exn "unreached")).calls = [] :=
  (C5_enum_value_outside_set_rejected ⟨some "s", "tvly"⟩ (some "s")
    [("query", JVal.s "q"), ("search_depth", JVal.s "deep")]
    (.exn "unreached") "deep").1 rfl (by decide)

/-- C7: when the upstream call raises (network failure or any unexpected
exception), every handler catches it and returns a 500 whose detail is the
exception message itself; nothing propagates past the HTTP layer. -/
theorem C7_exception_message_in_detail (cfg : Config)
    (header : Option String) (sbody ebody : RawBody)
    (sr : TavilySearchRequest) (er : TavilyExtractRequest) (msg : String)
    (hauth : header = cfg.apiKey)
    (hs : parseSearchRequest sbody = .ok sr)
    (he : parseExtractRequest ebody = .ok er) :
    (publicSearchEndpoint cfg.tavilyApiKey sbody (.exn msg)).result =
      .error ⟨500, msg⟩ ∧
    (tavilySearchEndpoint cfg header sbody (.exn msg)).result =
      .error ⟨500, msg⟩ ∧
    (tavilyExtractEndpoint cfg header ebody (.exn msg)).result =
      .error ⟨500, msg⟩ := by
  have hg := get_api_key_ok cfg.apiKey header hauth
  refine ⟨?_, ?_, ?_⟩ <;>
    simp [publicSearchEndpoint, tavilySearchEndpoint,
          tavilyExtractEndpoint, hg, hs, he, public_search, tavily_search,
          tavily_extract]

/-- Witness for C7 at a concrete timeout message. -/
theorem C7_exception_message_in_detail_witness :
    (publicSearchEndpoint "tvly" [("query", JVal.s "q")]
        (.exn "Connection timed out")).result =
      .error ⟨500, "Connection timed out"⟩ ∧
    (tavilySearchEndpoint ⟨some "s", "tvly"⟩ (some "s")
        [("query", JVal.s "q")] (.exn "Connection timed out")).result =
      .error ⟨500, "Connection timed out"⟩ ∧
    (tavilyExtractEndpoint ⟨some "s", "tvly"⟩ (some "s")
        [("urls", JVal.strs ["http://a"])]
        (.exn "Connection timed out")).result =
      .error ⟨500, "Connection timed out"⟩ :=
  C7_exception_message_in_detail ⟨some "s", "tvly"⟩ (some "s")
    [("query", JVal.s "q")] [("urls", JVal.strs ["http://a"])]
    ⟨"q", "basic", "general", 3, "day", 10, false, false, false, [], []⟩
    ⟨["http://a"], "basic", false⟩ "Connection timed out" rfl rfl rfl

/-- C9: on a non-200 upstream response (credential and body valid), only
the protected search route logs the raw provider response text; the public
search route and the extract route log nothing, and all three surface the
same wrapped generic 500 result on that branch. -/
theorem C9_non200_logging_asymmetry (cfg : Config)
    (header : Option String) (sbody ebody : RawBody)
    (sr : TavilySearchRequest) (er : TavilyExtractRequest) (status : Nat)
    (text : String) (json : JVal) (hauth : header = cfg.apiKey)
    (hs : parseSearchRequest sbody = .ok sr)
    (he : parseExtractRequest ebody = .ok er) (hne : status ≠ 200) :
    (tavilySearchEndpoint cfg header sbody
        (.resp status text json)).log = [text] ∧
    (publicSearchEndpoint cfg.tavilyApiKey sbody
        (.resp status text json)).log = [] ∧
    (tavilyExtractEndpoint cfg header ebody
        (.resp status text json)).log = [] ∧
    (publicSearchEndpoint cfg.tavilyApiKey sbody
        (.resp status text json)).result =
      (tavilySearchEndpoint cfg header sbody
        (.resp status text json)).result ∧
    (tavilyExtractEndpoint cfg header ebody
        (.resp status text json)).result =
      (tavilySearchEndpoint cfg header sbody
        (.resp status text json)).result := by
  have hg := get_api_key_ok cfg.apiKey header hauth
  have h1 := tavily_search_non200 cfg.tavilyApiKey sr status text json hne
  have h2 := public_search_non200 cfg.tavilyApiKey sr status text json hne
  have h3 := tavily_extract_non200 cfg.tavilyApiKey er status text json hne
  refine ⟨?_, ?_, ?_, ?_, ?_⟩ <;>
    simp [tavilySearchEndpoint, publicSearchEndpoint,
          tavilyExtractEndpoint, hg, hs, he, h1, h2, h3]

/-- Witness for C9 at a concrete 503 response. -/
theorem C9_non200_logging_asymmetry_witness :
    (tavilySearchEndpoint ⟨some "s", "tvly"⟩ (some "s")
        [("query", JVal.s "q")] (.resp 503 "raw body" (.s "x"))).log =
      ["raw body"] ∧
    (publicSearchEndpoint "tvly" [("query", JVal.s "q")]
        (.resp 503 "raw body" (.s "x"))).log = [] ∧
    (tavilyExtractEndpoint ⟨some "s", "tvly"⟩ (some "s")
        [("urls", JVal.strs ["http://a"])]
        (.resp 503 "raw body" (.s "x"))).log = [] ∧
    (publicSearchEndpoint "tvly" [("query", JVal.s "q")]
        (.resp 503 "raw body" (.s "x"))).result =
      (tavilySearchEndpoint ⟨some "s", "tvly"⟩ (some "s")
        [("query", JVal.s "q")] (.resp 503 "raw body" (.s "x"))).result ∧
    (tavilyExtractEndpoint ⟨some "s", "tvly"⟩ (some "s")
        [("urls", JVal.strs ["http://a"])]
        (.resp 503 "raw body" (.s "x"))).result =
      (tavilySearchEndpoint ⟨some "s", "tvly"⟩ (some "s")
        [("query", JVal.s "q")] (.resp 503 "raw body" (.s "x"))).result :=
  C9_non200_logging_asymmetry ⟨some "s", "tvly"⟩ (some "s")
    [("query", JVal.s "q")] [("urls", JVal.strs ["http://a"])]
    ⟨"q", "basic", "general", 3, "day", 10, false, false, false, [], []⟩
    ⟨["http://a"], "basic", false⟩ 503 "raw body" (.s "x") rfl rfl rfl
    (by decide)

/-- C10: the public and protected search handlers are behaviourally
equivalent apart from the credential gate and the server-side log: for
every validated request and upstream outcome they produce the same
caller-visible result and the same outbound calls, both at handler level
and at route level once the credential check succeeds. -/
theorem C10_public_and_protected_search_equivalent (cfg : Config)
    (header : Option String) (r : TavilySearchRequest) (body : RawBody)
    (up : UpstreamOutcome) (hauth : header = cfg.apiKey) :
    (public_search cfg.tavilyApiKey r up).result =
      (tavily_search cfg.tavilyApiKey r up).result ∧
    (public_search cfg.tavilyApiKey r up).calls =
      (tavily_search cfg.tavilyApiKey r up).calls ∧
    (publicSearchEndpoint cfg.tavilyApiKey body up).result =
      (tavilySearchEndpoint cfg header body up).result ∧
    (publicSearchEndpoint cfg.tavilyApiKey body up).calls =
      (tavilySearchEndpoint cfg header body up).calls := by
  have hg := get_api_key_ok cfg.apiKey header hauth
  have hres : ∀ (r' : TavilySearchRequest) (u : UpstreamOutcome),
      (public_search cfg.tavilyApiKey r' u).result =
        (tavily_search cfg.tavilyApiKey r' u).result := by
    intro r' u
    cases u with
    | exn m => rfl
    | resp st t j =>
      by_cases h : st = 200 <;> simp [public_search, tavily_search, h]
  have hcalls : ∀ (r' : TavilySearchRequest) (u : UpstreamOutcome),
      (public_search cfg.tavilyApiKey r' u).calls =
        (tavily_search cfg.tavilyApiKey r' u).calls := by
    intro r' u
    rw [public_search_calls, tavily_search_calls]
  refine ⟨hres r up, hcalls r up, ?_, ?_⟩
  · rcases hp : parseSearchRequest body with f | r'
    · simp [publicSearchEndpoint, tavilySearchEndpoint, hg, hp]
    · simpa [publicSearchEndpoint, tavilySearchEndpoint, hg, hp]
        using hres r' up
  · rcases hp : parseSearchRequest body with f | r'
    · simp [publicSearchEndpoint, tavilySearchEndpoint, hg, hp]
    · simpa [publicSearchEndpoint, tavilySearchEndpoint, hg, hp]
        using hcalls r' up

/-- Witness for C10 at a concrete request, body and 503 response. -/
theorem C10_public_and_protected_search_equivalent_witness :
    (public_search "tvly"
        ⟨"q", "basic", "general", 3, "day", 10, false, false, false,
         [], []⟩ (.resp 503 "t" (.s "x"))).result =
      (tavily_search "tvly"
        ⟨"q", "basic", "general", 3, "day", 10, false, false, false,
         [], []⟩ (.resp 503 "t" (.s "x"))).result ∧
    (public_search "tvly"
        ⟨"q", "basic", "general", 3, "day", 10, false, false, false,
         [], []⟩ (.resp 503 "t" (.s "x"))).calls =
      (tavily_search "tvly"
        ⟨"q", "basic", "general", 3, "day", 10, false, false, false,
         [], []⟩ (.resp 503 "t" (.s "x"))).calls ∧
    (publicSearchEndpoint "tvly" [("query", JVal.s "q")]
        (.resp 503 "t" (.s "x"))).result =
      (tavilySearchEndpoint ⟨some "s", "tvly"⟩ (some "s")
        [("query", JVal.s "q")] (.resp 503 "t" (.s "x"))).result ∧
    (publicSearchEndpoint "tvly" [("query", JVal.s "q")]
        (.resp 503 "t" (.s "x"))).calls =
      (tavilySearchEndpoint ⟨some "s", "tvly"⟩ (some "s")
        [("query", JVal.s "q")] (.resp 503 "t" (.s "x"))).calls :=
  C10_public_and_protected_search_equivalent ⟨some "s", "tvly"⟩ (some "s")
    ⟨"q", "basic", "general", 3, "day", 10, false, false, false, [], []⟩
    [("query", JVal.s "q")] (.resp 503 "t" (.s "x")) rfl

end TavilyServer
